import Mathlib

/-!
Shallow embedding of the `microservice_mail` print-order fulfillment system
(order service, file service, email service, shared cache and retry utilities),
together with theorems checking the natural-language specification against it.

Python strings are modelled as `List Char` (`Str`); machine time (`time.time()`)
is modelled by explicit `Nat` timestamps passed to each stateful operation;
Python exceptions are modelled with `Except`; network collaborators (Google
Drive search, SMTP, Baselinker POST) are modelled as explicit call-indexed
outcome parameters so that a failing or succeeding collaborator can be plugged
in.  All definitions are executable.
-/

/-- Python strings, modelled as lists of characters. -/
abbrev Str := List Char

/-- `str.lower()` (ASCII case folding, which is all the repository uses). -/
def lowerL (s : Str) : Str := s.map Char.toLower

/-- Bool-valued "is this list a prefix of that one" over characters. -/
def isPrefixL : Str → Str → Bool
  | [], _ => true
  | _ :: _, [] => false
  | a :: as, b :: bs => a == b && isPrefixL as bs

/-- Python's `needle in hay` substring test. -/
def containsL (needle : Str) : Str → Bool
  | [] => isPrefixL needle []
  | c :: t => isPrefixL needle (c :: t) || containsL needle t

/-- Python's `hay.endswith(suffix)`. -/
def endsL (suffix hay : Str) : Bool := isPrefixL suffix.reverse hay.reverse

/-! ## Format annotation (`FileService.get_format_info`, `EmailService.get_format_info`)

The two services carry near-identical copies of this helper; they differ in the
middle branch: the file service tests `filename_lower.endswith('45')` while the
email service tests `filename_lower.endswith('_45')`. -/

/-- `FileService.get_format_info` (services/file-service/app.py, lines 132-142). -/
def FileService.get_format_info (filename : Str) : Str :=
  let filename_lower := lowerL filename
  if endsL "_b2".data filename_lower || containsL "_b2".data filename_lower then
    "format 50 x 70 cm".data
  else if endsL "45".data filename_lower then
    "format 40x50 cm".data
  else if containsL "_a3".data filename_lower then
    "format 30x40 cm".data
  else
    []

/-- `EmailService.get_format_info` (services/email-service/app.py, lines 450-470). -/
def EmailService.get_format_info (filename : Str) : Str :=
  let filename_lower := lowerL filename
  if endsL "_b2".data filename_lower || containsL "_b2".data filename_lower then
    "format 50 x 70 cm".data
  else if endsL "_45".data filename_lower then
    "format 40x50 cm".data
  else if containsL "_a3".data filename_lower then
    "format 30x40 cm".data
  else
    []

/-- The annotation rule as the spec words it, over an already-lowercased name,
parametrised by the exact suffix tested in the middle branch so that both code
variants can be compared against it. -/
def formatAnnotationRule (middleSuffix fl : Str) : Str :=
  if containsL "_b2".data fl then "format 50 x 70 cm".data
  else if endsL middleSuffix fl then "format 40x50 cm".data
  else if containsL "_a3".data fl then "format 30x40 cm".data
  else []

/-! ## Tiered cache (`shared/cache.py`)

`SimpleCache` (in-memory tier) and `FileCache` (on-disk tier) are association
lists from keys to entries; `time.time()` is an explicit `Nat` argument.  The
two `time.time()` calls inside `set` are collapsed into one timestamp.  The
disk tier's JSON-corruption branch (treated as a miss and deleted) is outside
every claim's inputs and is not modelled; disk files, keyed in the source by
`md5(key)`, are keyed here by the key itself. -/

/-- One cache entry: `{'value': v, 'expires_at': now + ttl, 'created_at': now}`. -/
structure CacheEntry (α : Type) where
  value : α
  expires_at : Nat
  created_at : Nat
deriving DecidableEq

/-- Association-list lookup with Python-dict semantics (single binding per key). -/
def kvLookup {β : Type} (k : Str) : List (Str × β) → Option β
  | [] => none
  | (k2, v) :: rest => if k = k2 then some v else kvLookup k rest

/-- Remove every binding of `k` (models `del cache[key]` / `file.unlink()`). -/
def kvErase {β : Type} (k : Str) : List (Str × β) → List (Str × β)
  | [] => []
  | (k2, v) :: rest => if k = k2 then kvErase k rest else (k2, v) :: kvErase k rest

/-- Dict assignment `m[k] = v`. -/
def kvInsert {β : Type} (k : Str) (v : β) (m : List (Str × β)) : List (Str × β) :=
  (k, v) :: kvErase k m

/-- The in-memory tier (`SimpleCache.cache` dict). -/
abbrev SimpleCache (α : Type) := List (Str × CacheEntry α)

/-- The on-disk tier (`FileCache`'s directory of JSON files). -/
abbrev FileCache (α : Type) := List (Str × CacheEntry α)

/-- `SimpleCache.get` (shared/cache.py lines 16-28): on a present entry, expired
means `time.time() > expires_at`; an expired entry is deleted and `None`
returned.  Returns the read result together with the cache after lazy eviction. -/
def SimpleCache.get {α : Type} (cache : SimpleCache α) (now : Nat) (key : Str) :
    Option α × SimpleCache α :=
  match kvLookup key cache with
  | none => (none, cache)
  | some entry =>
    if now > entry.expires_at then (none, kvErase key cache)
    else (some entry.value, cache)

/-- `SimpleCache.set` (shared/cache.py lines 30-41). -/
def SimpleCache.set {α : Type} (cache : SimpleCache α) (now : Nat) (key : Str)
    (value : α) (ttl : Nat) : SimpleCache α :=
  kvInsert key ⟨value, now + ttl, now⟩ cache

/-- `FileCache.get` (shared/cache.py lines 106-128): identical expiry logic, with
`unlink` of the expired file. -/
def FileCache.get {α : Type} (cache : FileCache α) (now : Nat) (key : Str) :
    Option α × FileCache α :=
  match kvLookup key cache with
  | none => (none, cache)
  | some entry =>
    if now > entry.expires_at then (none, kvErase key cache)
    else (some entry.value, cache)

/-- `FileCache.set` (shared/cache.py lines 130-149), success path of the file write. -/
def FileCache.set {α : Type} (cache : FileCache α) (now : Nat) (key : Str)
    (value : α) (ttl : Nat) : FileCache α :=
  kvInsert key ⟨value, now + ttl, now⟩ cache

/-! ## Cache key for Drive searches (`get_drive_files_cache_key`, cache.py lines 157-160)

`','.join(sorted(required_files))` then
`f"drive_files:{folder_id}:{hash(files_str)}"`.  Python's builtin `hash` is
deterministic within a process but otherwise unspecified, so it is a parameter
`h` of the key function; `pyHashModel` is a concrete instantiation used by the
closed witnesses. -/

/-- Python's `sorted` on a list of strings: the unique `≤`-sorted permutation
(lexicographic by code point). -/
def pySortStrings (files : List Str) : List Str :=
  List.insertionSort (· ≤ ·) files

/-- `','.join(parts)`. -/
def intercalateComma : List Str → Str
  | [] => []
  | [s] => s
  | s :: t :: rest => s ++ ',' :: intercalateComma (t :: rest)

/-- Decimal rendering of the hash, as interpolated by the f-string. -/
def intRepr (n : Int) : Str := (toString n).data

/-- A concrete stand-in for Python's (process-deterministic, unspecified)
builtin string hash; its exact values are irrelevant to every property proved. -/
def pyHashModel (s : Str) : Int :=
  Int.ofNat (s.foldl (fun a c => (a * 31 + c.toNat) % 1000003) 7)

/-- `get_drive_files_cache_key` (shared/cache.py lines 157-160). -/
def get_drive_files_cache_key (h : Str → Int) (folder_id : Str)
    (required_files : List Str) : Str :=
  "drive_files:".data ++ folder_id ++
    ':' :: intRepr (h (intercalateComma (pySortStrings required_files)))

/-! ## Cache-backed file resolver
(`FileService.get_drive_files`, services/file-service/app.py lines 68-130,
wrapped by `cache_drive_search`, shared/cache.py lines 163-193)

The Google Drive collaborator is a call-indexed outcome `search : Nat → Except
Unit (List DriveFile)`: `search n` is what the `service.files().list(...).execute()`
call returns (or the exception it raises) on the `n`-th provider invocation.
`create_drive_service()` (local credential loading) is modelled as succeeding.
The best-effort `share_file_with_viewer` loop swallows its own errors and does
not influence the returned value, so it is not modelled.  `providerCalls`
counts executed provider searches (instrumentation needed to state the
call-count claims). -/

/-- A Drive file record: `fields="files(id, name, webViewLink)"`. -/
structure DriveFile where
  id : Str
  name : Str
  webViewLink : Str
deriving DecidableEq

/-- The resolver's `ResolutionResult`: the `(available_files, missing_files)`
pair returned by `get_drive_files`. -/
structure DriveResult where
  available : List (Str × DriveFile)
  missing : List Str
deriving DecidableEq

/-- One iteration of the lookup-dictionary loop (file-service app.py lines
105-115): record the found file under its lowercased name and, when that name
lacks a `.pdf` suffix but `name.pdf` was requested, also under `name.pdf`. -/
def addFoundFile (required_files_lower : List Str)
    (st : List (Str × DriveFile) × List Str) (f : DriveFile) :
    List (Str × DriveFile) × List Str :=
  let file_name_lower := lowerL f.name
  let avail := kvInsert file_name_lower f st.1
  let names := file_name_lower :: st.2
  if !(endsL ".pdf".data file_name_lower) then
    let pdf_name := file_name_lower ++ ".pdf".data
    if decide (pdf_name ∈ required_files_lower) then
      (kvInsert pdf_name f avail, pdf_name :: names)
    else (avail, names)
  else (avail, names)

/-- The `(available_files, found_file_names)` pair built from the provider's
result list (file-service app.py lines 101-115). -/
def processFound (required_files_lower : List Str) (found : List DriveFile) :
    List (Str × DriveFile) × List Str :=
  found.foldl (addFoundFile required_files_lower) ([], [])

/-- The body of `FileService.get_drive_files` (lines 69-130): on a provider
exception the handler returns `({}, [])`; on success it builds the lookup
dictionary and `missing_files = [name for name in required_files if
name.lower() not in found_file_names]`. -/
def FileService.get_drive_files_core (required_files : List Str)
    (searchOutcome : Except Unit (List DriveFile)) : DriveResult :=
  match searchOutcome with
  | .error _ => ⟨[], []⟩
  | .ok found =>
    let required_files_lower := required_files.map lowerL
    let st := processFound required_files_lower found
    let missing_files := required_files.filter (fun name => decide (lowerL name ∉ st.2))
    ⟨st.1, missing_files⟩

/-- The resolver's mutable state: the two global cache instances plus the
provider-invocation counter. -/
structure ResolverState where
  mem : SimpleCache DriveResult
  disk : FileCache DriveResult
  providerCalls : Nat
deriving DecidableEq

/-- `cache_drive_search` applied to `get_drive_files` (shared/cache.py lines
163-193): try the memory tier, then the file tier (promoting a hit into memory
with TTL 300), and only on a double miss run the search body, writing the
result through both tiers (TTLs 300 and 1800). -/
def cache_drive_search (h : Str → Int) (folder_id : Str)
    (search : Nat → Except Unit (List DriveFile)) (st : ResolverState)
    (now : Nat) (required_files : List Str) : DriveResult × ResolverState :=
  let key := get_drive_files_cache_key h folder_id required_files
  match SimpleCache.get st.mem now key with
  | (some r, mem2) => (r, { st with mem := mem2 })
  | (none, mem2) =>
    match FileCache.get st.disk now key with
    | (some r, disk2) =>
      (r, { mem := SimpleCache.set mem2 now key r 300, disk := disk2,
            providerCalls := st.providerCalls })
    | (none, disk2) =>
      let r := FileService.get_drive_files_core required_files (search st.providerCalls)
      (r, { mem := SimpleCache.set mem2 now key r 300,
            disk := FileCache.set disk2 now key r 1800,
            providerCalls := st.providerCalls + 1 })

/-- Decidable equality for modelled call outcomes. -/
instance {e a : Type} [DecidableEq e] [DecidableEq a] : DecidableEq (Except e a) :=
  fun x y =>
  match x, y with
  | .ok v, .ok w => decidable_of_iff (v = w) (by simp)
  | .ok _, .error _ => isFalse (by simp)
  | .error _, .ok _ => isFalse (by simp)
  | .error v, .error w => decidable_of_iff (v = w) (by simp)

/-! ## Order service (`services/order-service/app.py`) -/

/-- The payment fields of a Baselinker order, as read by
`order.get('payment_done', 0)` and `order.get('payment_method_cod', 0)`. -/
structure Order where
  payment_done : Int
  payment_method_cod : Int
deriving DecidableEq

/-- `OrderService.is_payment_valid` (order-service app.py lines 42-45). -/
def OrderService.is_payment_valid (o : Order) : Bool :=
  decide (o.payment_done ≠ 0) ||
    (decide (o.payment_done = 0) && decide (o.payment_method_cod = 1))

/-- The validity filter applied in `check_for_new_orders` (line 66) and
`get_order_details` (line 85). -/
def validOrders (orders : List Order) : List Order :=
  orders.filter OrderService.is_payment_valid

/-- `OrderService.update_order_status` (order-service app.py lines 107-126).
The per-order body (`int(order_id_str)` parse plus the `setOrderStatus` POST)
is a call outcome `upd : Str → Except Unit Unit`.  The single `try/except`
wraps the whole loop, so the first raising order aborts the rest; the except
branch logs and returns `False`.  Alongside the source's boolean return value,
the model returns the list of orders whose per-order body was executed
(instrumentation needed to state the per-order claims). -/
def OrderService.update_order_status (upd : Str → Except Unit Unit) :
    List Str → Bool × List Str
  | [] => (true, [])
  | o :: rest =>
    match upd o with
    | .ok _ =>
      let r := OrderService.update_order_status upd rest
      (r.1, o :: r.2)
    | .error _ => (false, [o])

/-! ## Resilient call wrapper (`retry_on_failure`, shared/utils.py lines 11-42)

`f attempt` is the outcome of executing the wrapped body on iteration
`attempt` of `for attempt in range(max_retries + 1)`.  The inter-attempt
`time.sleep` and the backoff multiplication affect timing only and are not
modelled.  The result is paired with the number of times the body was
executed (instrumentation needed to state the at-most-once claim). -/

/-- Python exceptions raised by the email path. -/
inductive PyErr where
  | valueError (msg : Str)
  | smtpError (msg : Str)
deriving DecidableEq

/-- The retry loop from iteration `attempt` with `n` further iterations
allowed after this one: return on success; on failure re-raise when no
iterations remain, otherwise retry. -/
def retryExec {α : Type} (f : Nat → Except PyErr α) : Nat → Nat → Except PyErr α × Nat
  | attempt, 0 => (f attempt, 1)
  | attempt, n + 1 =>
    match f attempt with
    | .ok a => (.ok a, 1)
    | .error _ =>
      let r := retryExec f (attempt + 1) n
      (r.1, r.2 + 1)

/-- `retry_on_failure(max_retries, ...)` applied to a body `f`. -/
def retry_on_failure {α : Type} (max_retries : Nat) (f : Nat → Except PyErr α) :
    Except PyErr α × Nat :=
  retryExec f 0 max_retries

/-! ## Email service (`services/email-service/app.py`) -/

/-- Character class `[a-zA-Z0-9._%+-]` (local part of the address regex). -/
def isEmailLocalChar (c : Char) : Bool :=
  c.isAlpha || c.isDigit || c = '.' || c = '_' || c = '%' || c = '+' || c = '-'

/-- Character class `[a-zA-Z0-9.-]` (domain part of the address regex). -/
def isEmailDomainChar (c : Char) : Bool :=
  c.isAlpha || c.isDigit || c = '.' || c = '-'

/-- Split at the first occurrence of `c`, returning the parts before and after
it, or `none` when `c` does not occur. -/
def splitOnFirst (c : Char) : Str → Option (Str × Str)
  | [] => none
  | x :: xs =>
    if x = c then some ([], xs)
    else
      match splitOnFirst c xs with
      | none => none
      | some (a, b) => some (x :: a, b)

/-- Split at the last occurrence of `c`. -/
def splitOnLast (c : Char) (s : Str) : Option (Str × Str) :=
  match splitOnFirst c s.reverse with
  | none => none
  | some (a, b) => some (b.reverse, a.reverse)

/-- `validate_email` (shared/utils.py lines 136-148):
`re.match(r'^[a-zA-Z0-9._%+-]+@[a-zA-Z0-9.-]+\.[a-zA-Z]{2,}$', email)`.
Neither class contains `@`, so the local/rest split is at the first `@`; the
final `[a-zA-Z]{2,}` is dot-free, so the domain/TLD split is at the last `.` of
the rest.  (`$` also matching just before a trailing newline is not modelled.) -/
def validate_email (email : Str) : Bool :=
  match splitOnFirst '@' email with
  | none => false
  | some (localPart, rest) =>
    match splitOnLast '.' rest with
    | none => false
    | some (domainPart, tld) =>
      !localPart.isEmpty && localPart.all isEmailLocalChar &&
        !domainPart.isEmpty && domainPart.all isEmailDomainChar &&
        decide (tld.length ≥ 2) && tld.all Char.isAlpha

/-- One execution of the `EmailService.send_email` body (email-service app.py
lines 224-357): validate the address (raising `ValueError`), then reject an
empty subject or body (raising `ValueError`), then run the SMTP send, whose
outcome per attempt is the parameter and whose failures re-raise as non-value
errors. -/
def send_email_once (to_email subject body : Str) (smtp : Except Str Unit) :
    Except PyErr Str :=
  if validate_email to_email = false then
    .error (.valueError ("Invalid email address: ".data ++ to_email))
  else if subject.isEmpty || body.isEmpty then
    .error (.valueError "Subject and body cannot be empty".data)
  else
    match smtp with
    | .ok _ => .ok ("Email sent to ".data ++ to_email)
    | .error e => .error (.smtpError e)

/-- `EmailService.send_email`: the body above wrapped by
`@retry_on_failure(max_retries=3, delay=1.0)`. -/
def EmailService.send_email (to_email subject body : Str)
    (smtp : Nat → Except Str Unit) : Except PyErr Str × Nat :=
  retry_on_failure 3 (fun attempt => send_email_once to_email subject body (smtp attempt))

/-- First resolve against a provider whose search raises, from a fresh state. -/
def c1FirstResolve : DriveResult × ResolverState :=
  cache_drive_search pyHashModel "F".data (fun _ => Except.error ())
    ⟨[], [], 0⟩ 0 ["a.pdf".data]

/-- Resolve with an empty `required_files` from a fresh state; the empty-OR
Drive query raises, which the handler turns into `({}, [])`. -/
def c5EmptyResolve : DriveResult × ResolverState :=
  cache_drive_search pyHashModel "F".data (fun _ => Except.error ()) ⟨[], [], 0⟩ 0 []

/-- A per-order update outcome that fails exactly on order id "2". -/
def c3Upd : Str → Except Unit Unit :=
  fun o => if o = "2".data then .error () else .ok ()

theorem isPrefixL_self_append (s t : Str) : isPrefixL s (s ++ t) = true := by
  induction s with
  | nil => rfl
  | cons a as ih => simp [isPrefixL, ih]

theorem isPrefixL_exists {s b : Str} (h : isPrefixL s b = true) :
    ∃ t, b = s ++ t := by
  induction s generalizing b with
  | nil => exact ⟨b, rfl⟩
  | cons a as ih =>
    cases b with
    | nil => simp [isPrefixL] at h
    | cons x xs =>
      simp only [isPrefixL, Bool.and_eq_true, beq_iff_eq] at h
      obtain ⟨t, ht⟩ := ih h.2
      exact ⟨t, by simp [h.1, ht]⟩

theorem containsL_append (pre needle : Str) :
    containsL needle (pre ++ needle) = true := by
  induction pre with
  | nil =>
    cases needle with
    | nil => rfl
    | cons c t =>
      simp only [List.nil_append, containsL, Bool.or_eq_true]
      exact Or.inl (by simpa using isPrefixL_self_append (c :: t) [])
  | cons a pre ih =>
    simp [containsL, ih]

theorem containsL_of_endsL {suf s : Str} (h : endsL suf s = true) :
    containsL suf s = true := by
  obtain ⟨t, ht⟩ := isPrefixL_exists h
  have hs : s = t.reverse ++ suf := by
    have := congrArg List.reverse ht
    simpa [List.reverse_append] using this
  rw [hs]
  exact containsL_append t.reverse suf

theorem endsL_or_containsL (b fl : Str) :
    (endsL b fl || containsL b fl) = containsL b fl := by
  cases h : endsL b fl with
  | false => simp
  | true => simp [containsL_of_endsL h]

theorem kvLookup_kvInsert {β : Type} (k : Str) (v : β) (m : List (Str × β)) :
    kvLookup k (kvInsert k v m) = some v := by
  simp [kvInsert, kvLookup]

theorem memCache_get_of_lookup_none {α : Type} {cache : SimpleCache α}
    {key : Str} (now : Nat) (h : kvLookup key cache = none) :
    SimpleCache.get cache now key = (none, cache) := by
  simp [SimpleCache.get, h]

theorem fileCache_get_of_lookup_none {α : Type} {cache : FileCache α}
    {key : Str} (now : Nat) (h : kvLookup key cache = none) :
    FileCache.get cache now key = (none, cache) := by
  simp [FileCache.get, h]

theorem SimpleCache.get_hit {α : Type} {cache : SimpleCache α} {key : Str}
    {entry : CacheEntry α} (now : Nat) (h1 : kvLookup key cache = some entry)
    (h2 : ¬ now > entry.expires_at) :
    SimpleCache.get cache now key = (some entry.value, cache) := by
  simp [SimpleCache.get, h1, h2]

theorem pySortStrings_perm {files1 files2 : List Str} (hp : files1.Perm files2) :
    pySortStrings files1 = pySortStrings files2 :=
  List.eq_of_perm_of_sorted
    ((List.perm_insertionSort _ files1).trans
      (hp.trans (List.perm_insertionSort _ files2).symm))
    (List.sorted_insertionSort _ files1)
    (List.sorted_insertionSort _ files2)

theorem cache_key_perm (h : Str → Int) (folder : Str) {files1 files2 : List Str}
    (hp : files1.Perm files2) :
    get_drive_files_cache_key h folder files1 =
      get_drive_files_cache_key h folder files2 := by
  simp [get_drive_files_cache_key, pySortStrings_perm hp]

theorem cache_drive_search_full_miss (h : Str → Int) (folder : Str)
    (search : Nat → Except Unit (List DriveFile)) (st : ResolverState)
    (now : Nat) (files : List Str)
    (hm : kvLookup (get_drive_files_cache_key h folder files) st.mem = none)
    (hd : kvLookup (get_drive_files_cache_key h folder files) st.disk = none) :
    cache_drive_search h folder search st now files =
      (FileService.get_drive_files_core files (search st.providerCalls),
       { mem := SimpleCache.set st.mem now (get_drive_files_cache_key h folder files)
                  (FileService.get_drive_files_core files (search st.providerCalls)) 300,
         disk := FileCache.set st.disk now (get_drive_files_cache_key h folder files)
                  (FileService.get_drive_files_core files (search st.providerCalls)) 1800,
         providerCalls := st.providerCalls + 1 }) := by
  simp only [cache_drive_search]
  rw [memCache_get_of_lookup_none now hm, fileCache_get_of_lookup_none now hd]

theorem cache_drive_search_mem_hit (h : Str → Int) (folder : Str)
    (search : Nat → Except Unit (List DriveFile)) (st : ResolverState)
    (now : Nat) (files : List Str) (entry : CacheEntry DriveResult)
    (h1 : kvLookup (get_drive_files_cache_key h folder files) st.mem = some entry)
    (h2 : ¬ now > entry.expires_at) :
    cache_drive_search h folder search st now files = (entry.value, st) := by
  simp only [cache_drive_search]
  rw [SimpleCache.get_hit now h1 h2]

theorem retryExec_const_error {α : Type} {f : Nat → Except PyErr α} {e : PyErr}
    (hf : ∀ a, f a = .error e) : ∀ n a0, retryExec f a0 n = (.error e, n + 1) := by
  intro n
  induction n with
  | zero => intro a0; simp [retryExec, hf a0]
  | succ n ih => intro a0; simp [retryExec, hf a0, ih (a0 + 1)]

/-! ## Claims -/

/-- C9: for every order record, `is_payment_valid` holds iff the payment is
marked done, or it is not marked done and the payment method is
cash-on-delivery; of the orders `[{done=1,cod=0}, {done=0,cod=1},
{done=0,cod=0}]` exactly the first two are valid. -/
theorem claim_C9 :
    (∀ o : Order, OrderService.is_payment_valid o = true ↔
      (o.payment_done ≠ 0 ∨ (o.payment_done = 0 ∧ o.payment_method_cod = 1))) ∧
    validOrders [⟨1, 0⟩, ⟨0, 1⟩, ⟨0, 0⟩] = [⟨1, 0⟩, ⟨0, 1⟩] := by
  constructor
  · intro o
    simp [OrderService.is_payment_valid]
  · decide

/-- C8 counterexample: the claim says the `_45` label is returned exactly when
the name ends with `'_45'`, but `FileService.get_format_info` tests
`endswith('45')`: on `"poster45"` it returns the `_45` label although the name
does not end with `'_45'` and contains neither `'_b2'` nor `'_a3'` (for which
the claim requires the empty annotation). -/
theorem claim_C8_counterexample :
    FileService.get_format_info "poster45".data = "format 40x50 cm".data ∧
    endsL "_45".data (lowerL "poster45".data) = false ∧
    containsL "_b2".data (lowerL "poster45".data) = false ∧
    containsL "_a3".data (lowerL "poster45".data) = false := by
  decide

/-- C8 (amended): on the lowercased name, both format-annotation functions
return the `_b2` label when it contains `'_b2'`, otherwise the `_45` label
exactly when it ends with `'_45'` in the email service but `'45'` (underscore
not required) in the file service, otherwise the `_a3` label when it contains
`'_a3'`, and otherwise the empty annotation; the claim's four examples hold in
both services. -/
theorem claim_C8 :
    (∀ filename : Str,
      EmailService.get_format_info filename =
        formatAnnotationRule "_45".data (lowerL filename) ∧
      FileService.get_format_info filename =
        formatAnnotationRule "45".data (lowerL filename)) ∧
    EmailService.get_format_info "poster_b2.pdf".data = "format 50 x 70 cm".data ∧
    EmailService.get_format_info "poster_45".data = "format 40x50 cm".data ∧
    EmailService.get_format_info "design_a3_v2".data = "format 30x40 cm".data ∧
    EmailService.get_format_info "plainfile".data = [] ∧
    FileService.get_format_info "poster_b2.pdf".data = "format 50 x 70 cm".data ∧
    FileService.get_format_info "poster_45".data = "format 40x50 cm".data ∧
    FileService.get_format_info "design_a3_v2".data = "format 30x40 cm".data ∧
    FileService.get_format_info "plainfile".data = [] := by
  refine ⟨fun filename => ⟨?_, ?_⟩, by decide, by decide, by decide, by decide,
    by decide, by decide, by decide, by decide⟩ <;>
    simp only [EmailService.get_format_info, FileService.get_format_info,
      formatAnnotationRule, endsL_or_containsL]

/-- C10: every entry of the missing-files list is a requested filename in its
original spelling and the list preserves the request's relative order (it is a
sublist of `required_files`); a requested name is missing exactly when its
lowercase form is not among the computed found-file names. -/
theorem claim_C10 :
    ∀ (required_files : List Str) (found : List DriveFile),
      (FileService.get_drive_files_core required_files (.ok found)).missing.Sublist
        required_files ∧
      ∀ name,
        name ∈ (FileService.get_drive_files_core required_files (.ok found)).missing ↔
          (name ∈ required_files ∧
            lowerL name ∉ (processFound (required_files.map lowerL) found).2) := by
  intro required_files found
  constructor
  · simp only [FileService.get_drive_files_core]
    exact List.filter_sublist _
  · intro name
    simp [FileService.get_drive_files_core, List.mem_filter]

/-- C4 counterexample: the claim says a read at time `created_at + t` returns
absent, but both tiers use the strict test `time.time() > expires_at`: an entry
set at time 0 with TTL 5 is still returned at time 5. -/
theorem claim_C4_counterexample :
    5 ≥ 0 + 5 ∧
    (SimpleCache.get (SimpleCache.set ([] : SimpleCache Nat) 0 "k".data 42 5)
      5 "k".data).1 = some 42 ∧
    (FileCache.get (FileCache.set ([] : FileCache Nat) 0 "k".data 42 5)
      5 "k".data).1 = some 42 := by
  decide

/-- C4 (amended): for an entry written by `set` at time `t0` with TTL `ttl`,
`get` on that key returns the stored value for every read at `now ≤ t0 + ttl`
and absent for every read at `now > t0 + ttl` (strict expiry, both tiers). -/
theorem claim_C4 {α : Type} (cache : SimpleCache α) (dcache : FileCache α)
    (t0 ttl now : Nat) (key : Str) (v : α) :
    (now ≤ t0 + ttl →
      (SimpleCache.get (SimpleCache.set cache t0 key v ttl) now key).1 = some v) ∧
    (now > t0 + ttl →
      (SimpleCache.get (SimpleCache.set cache t0 key v ttl) now key).1 = none) ∧
    (now ≤ t0 + ttl →
      (FileCache.get (FileCache.set dcache t0 key v ttl) now key).1 = some v) ∧
    (now > t0 + ttl →
      (FileCache.get (FileCache.set dcache t0 key v ttl) now key).1 = none) := by
  refine ⟨fun hle => ?_, fun hgt => ?_, fun hle => ?_, fun hgt => ?_⟩
  · have hx : ¬ now > t0 + ttl := by omega
    simp [SimpleCache.get, SimpleCache.set, kvLookup_kvInsert, hx]
  · simp [SimpleCache.get, SimpleCache.set, kvLookup_kvInsert, hgt]
  · have hx : ¬ now > t0 + ttl := by omega
    simp [FileCache.get, FileCache.set, kvLookup_kvInsert, hx]
  · simp [FileCache.get, FileCache.set, kvLookup_kvInsert, hgt]

/-- C4 witness: concrete reads before (time 3) and after (time 6) the expiry
of an entry set at time 0 with TTL 5, in both tiers. -/
theorem claim_C4_witness :
    3 ≤ 0 + 5 ∧ 6 > 0 + 5 ∧
    (SimpleCache.get (SimpleCache.set ([] : SimpleCache Nat) 0 "k".data 7 5)
      3 "k".data).1 = some 7 ∧
    (SimpleCache.get (SimpleCache.set ([] : SimpleCache Nat) 0 "k".data 7 5)
      6 "k".data).1 = none ∧
    (FileCache.get (FileCache.set ([] : FileCache Nat) 0 "k".data 7 5)
      3 "k".data).1 = some 7 ∧
    (FileCache.get (FileCache.set ([] : FileCache Nat) 0 "k".data 7 5)
      6 "k".data).1 = none :=
  ⟨by decide, by decide,
   (claim_C4 [] [] 0 5 3 "k".data 7).1 (by decide),
   (claim_C4 [] [] 0 5 6 "k".data 7).2.1 (by decide),
   (claim_C4 [] [] 0 5 3 "k".data 7).2.2.1 (by decide),
   (claim_C4 [] [] 0 5 6 "k".data 7).2.2.2 (by decide)⟩

/-- C6: the cache key is order-independent (any permutation of the filename
set yields the same key, for any hash function) and scope-separating (distinct
folder ids yield distinct keys for the same filename set). -/
theorem claim_C6 :
    (∀ (h : Str → Int) (folder : Str) (files1 files2 : List Str),
      files1.Perm files2 →
      get_drive_files_cache_key h folder files1 =
        get_drive_files_cache_key h folder files2) ∧
    (∀ (h : Str → Int) (folder1 folder2 : Str) (files : List Str),
      folder1 ≠ folder2 →
      get_drive_files_cache_key h folder1 files ≠
        get_drive_files_cache_key h folder2 files) := by
  constructor
  · intro h folder files1 files2 hp
    exact cache_key_perm h folder hp
  · intro h f1 f2 files hne heq
    apply hne
    simp only [get_drive_files_cache_key] at heq
    exact List.append_cancel_left (List.append_cancel_right heq)

/-- C6 witness: a concrete permutation maps to the same key, and the same
filename set under two distinct folder ids maps to different keys. -/
theorem claim_C6_witness :
    (["b".data, "a".data] : List Str).Perm ["a".data, "b".data] ∧
    ("F".data : Str) ≠ "G".data ∧
    get_drive_files_cache_key pyHashModel "F".data ["b".data, "a".data] =
      get_drive_files_cache_key pyHashModel "F".data ["a".data, "b".data] ∧
    get_drive_files_cache_key pyHashModel "F".data ["a".data, "b".data] ≠
      get_drive_files_cache_key pyHashModel "G".data ["a".data, "b".data] :=
  ⟨by decide, by decide,
   claim_C6.1 pyHashModel "F".data ["b".data, "a".data] ["a".data, "b".data] (by decide),
   claim_C6.2 pyHashModel "F".data "G".data ["a".data, "b".data] (by decide)⟩

/-- C7: starting from a state where the request's key is cached in neither
tier, two consecutive resolve calls with the same filename set (any
permutation) and scope invoke the provider search exactly once, and the second
call is answered from the cache with the same result — provided the second
call happens within the memory TTL (no expiry or deletion in between). -/
theorem claim_C7 (h : Str → Int) (folder : Str)
    (search : Nat → Except Unit (List DriveFile)) (st : ResolverState)
    (files1 files2 : List Str) (now now2 : Nat)
    (hp : files2.Perm files1)
    (hm : kvLookup (get_drive_files_cache_key h folder files1) st.mem = none)
    (hd : kvLookup (get_drive_files_cache_key h folder files1) st.disk = none)
    (hexp : now2 ≤ now + 300) :
    (cache_drive_search h folder search
        (cache_drive_search h folder search st now files1).2 now2 files2).1 =
      (cache_drive_search h folder search st now files1).1 ∧
    (cache_drive_search h folder search st now files1).2.providerCalls =
      st.providerCalls + 1 ∧
    (cache_drive_search h folder search
        (cache_drive_search h folder search st now files1).2 now2
        files2).2.providerCalls = st.providerCalls + 1 := by
  have hkey : get_drive_files_cache_key h folder files2 =
      get_drive_files_cache_key h folder files1 := cache_key_perm h folder hp
  have hfirst := cache_drive_search_full_miss h folder search st now files1 hm hd
  have hlook : kvLookup (get_drive_files_cache_key h folder files2)
      (SimpleCache.set st.mem now (get_drive_files_cache_key h folder files1)
        (FileService.get_drive_files_core files1 (search st.providerCalls)) 300) =
      some ⟨FileService.get_drive_files_core files1 (search st.providerCalls),
            now + 300, now⟩ := by
    rw [hkey]
    exact kvLookup_kvInsert _ _ _
  have hsecond := cache_drive_search_mem_hit h folder search
      ⟨SimpleCache.set st.mem now (get_drive_files_cache_key h folder files1)
         (FileService.get_drive_files_core files1 (search st.providerCalls)) 300,
       FileCache.set st.disk now (get_drive_files_cache_key h folder files1)
         (FileService.get_drive_files_core files1 (search st.providerCalls)) 1800,
       st.providerCalls + 1⟩ now2 files2
      ⟨FileService.get_drive_files_core files1 (search st.providerCalls), now + 300, now⟩
      hlook (show ¬ now2 > now + 300 by omega)
  rw [hfirst]
  dsimp only
  rw [hsecond]
  exact ⟨rfl, rfl, rfl⟩

/-- C7 witness: a fresh resolver state, a succeeding provider, the filename
set `{"abc.pdf"}`, and calls at times 0 and 10. -/
theorem claim_C7_witness :
    (["abc.pdf".data] : List Str).Perm ["abc.pdf".data] ∧
    kvLookup (get_drive_files_cache_key pyHashModel "F".data ["abc.pdf".data])
      (ResolverState.mk [] [] 0).mem = none ∧
    kvLookup (get_drive_files_cache_key pyHashModel "F".data ["abc.pdf".data])
      (ResolverState.mk [] [] 0).disk = none ∧
    (10 : Nat) ≤ 0 + 300 ∧
    (cache_drive_search pyHashModel "F".data
        (fun _ => Except.ok [⟨"i".data, "abc".data, "l".data⟩])
        (cache_drive_search pyHashModel "F".data
          (fun _ => Except.ok [⟨"i".data, "abc".data, "l".data⟩])
          ⟨[], [], 0⟩ 0 ["abc.pdf".data]).2 10 ["abc.pdf".data]).1 =
      (cache_drive_search pyHashModel "F".data
        (fun _ => Except.ok [⟨"i".data, "abc".data, "l".data⟩])
        ⟨[], [], 0⟩ 0 ["abc.pdf".data]).1 ∧
    (cache_drive_search pyHashModel "F".data
        (fun _ => Except.ok [⟨"i".data, "abc".data, "l".data⟩])
        ⟨[], [], 0⟩ 0 ["abc.pdf".data]).2.providerCalls = 0 + 1 ∧
    (cache_drive_search pyHashModel "F".data
        (fun _ => Except.ok [⟨"i".data, "abc".data, "l".data⟩])
        (cache_drive_search pyHashModel "F".data
          (fun _ => Except.ok [⟨"i".data, "abc".data, "l".data⟩])
          ⟨[], [], 0⟩ 0 ["abc.pdf".data]).2 10 ["abc.pdf".data]).2.providerCalls =
      0 + 1 :=
  ⟨List.Perm.refl _, rfl, rfl, by decide,
   claim_C7 pyHashModel "F".data
     (fun _ => Except.ok [⟨"i".data, "abc".data, "l".data⟩]) ⟨[], [], 0⟩
     ["abc.pdf".data] ["abc.pdf".data] 0 10 (List.Perm.refl _) rfl rfl (by decide)⟩

/-- C1 counterexample: the claim says a provider search failure leaves the
cache key absent in both tiers so that the next resolve calls the provider
again; in fact after the failed call the key is present in both tiers and a
second resolve with the same filename set and scope leaves the provider call
count at 1 (no retry). -/
theorem claim_C1_counterexample :
    (kvLookup (get_drive_files_cache_key pyHashModel "F".data ["a.pdf".data])
        c1FirstResolve.2.mem).isSome = true ∧
    (kvLookup (get_drive_files_cache_key pyHashModel "F".data ["a.pdf".data])
        c1FirstResolve.2.disk).isSome = true ∧
    (cache_drive_search pyHashModel "F".data (fun _ => Except.error ())
        c1FirstResolve.2 1 ["a.pdf".data]).2.providerCalls = 1 := by
  decide

/-- C1 (amended): when the provider search fails on a double cache miss, the
exception is caught inside `get_drive_files` and the empty result `({}, [])`
is returned as if it were a successful resolution; the wrapper then stores
that empty result in both cache tiers under the request's key, so a subsequent
resolve with the same filename set and scope within the memory TTL is answered
from the cache and does not invoke the provider again. -/
theorem claim_C1 (h : Str → Int) (folder : Str)
    (search : Nat → Except Unit (List DriveFile)) (st : ResolverState)
    (files : List Str) (now now2 : Nat)
    (hfail : search st.providerCalls = .error ())
    (hm : kvLookup (get_drive_files_cache_key h folder files) st.mem = none)
    (hd : kvLookup (get_drive_files_cache_key h folder files) st.disk = none)
    (hexp : now2 ≤ now + 300) :
    (cache_drive_search h folder search st now files).1 = ⟨[], []⟩ ∧
    kvLookup (get_drive_files_cache_key h folder files)
      (cache_drive_search h folder search st now files).2.mem =
      some ⟨⟨[], []⟩, now + 300, now⟩ ∧
    kvLookup (get_drive_files_cache_key h folder files)
      (cache_drive_search h folder search st now files).2.disk =
      some ⟨⟨[], []⟩, now + 1800, now⟩ ∧
    (cache_drive_search h folder search
        (cache_drive_search h folder search st now files).2 now2 files).1 =
      ⟨[], []⟩ ∧
    (cache_drive_search h folder search
        (cache_drive_search h folder search st now files).2 now2
        files).2.providerCalls = st.providerCalls + 1 := by
  have hcore : FileService.get_drive_files_core files (search st.providerCalls) =
      ⟨[], []⟩ := by rw [hfail]; rfl
  have hfirst := cache_drive_search_full_miss h folder search st now files hm hd
  rw [hcore] at hfirst
  have hlook : kvLookup (get_drive_files_cache_key h folder files)
      (SimpleCache.set st.mem now (get_drive_files_cache_key h folder files)
        (⟨[], []⟩ : DriveResult) 300) =
      some ⟨⟨[], []⟩, now + 300, now⟩ := kvLookup_kvInsert _ _ _
  have hsecond := cache_drive_search_mem_hit h folder search
      ⟨SimpleCache.set st.mem now (get_drive_files_cache_key h folder files)
         (⟨[], []⟩ : DriveResult) 300,
       FileCache.set st.disk now (get_drive_files_cache_key h folder files)
         (⟨[], []⟩ : DriveResult) 1800,
       st.providerCalls + 1⟩ now2 files
      ⟨⟨[], []⟩, now + 300, now⟩ hlook (show ¬ now2 > now + 300 by omega)
  rw [hfirst]
  dsimp only
  rw [hsecond]
  refine ⟨rfl, kvLookup_kvInsert _ _ _, kvLookup_kvInsert _ _ _, rfl, rfl⟩

/-- C1 witness: a fresh state, a failing provider, the filename set
`{"a.pdf"}`, calls at times 0 and 1. -/
theorem claim_C1_witness :
    ((fun _ => Except.error ()) (0 : Nat) :
      Except Unit (List DriveFile)) = .error () ∧
    kvLookup (get_drive_files_cache_key pyHashModel "F".data ["a.pdf".data])
      (ResolverState.mk [] [] 0).mem = none ∧
    (1 : Nat) ≤ 0 + 300 ∧
    (cache_drive_search pyHashModel "F".data (fun _ => Except.error ())
        ⟨[], [], 0⟩ 0 ["a.pdf".data]).1 = ⟨[], []⟩ ∧
    (cache_drive_search pyHashModel "F".data (fun _ => Except.error ())
        (cache_drive_search pyHashModel "F".data (fun _ => Except.error ())
          ⟨[], [], 0⟩ 0 ["a.pdf".data]).2 1 ["a.pdf".data]).2.providerCalls =
      0 + 1 :=
  ⟨rfl, rfl, by decide,
   (claim_C1 pyHashModel "F".data (fun _ => Except.error ()) ⟨[], [], 0⟩
     ["a.pdf".data] 0 1 rfl rfl rfl (by decide)).1,
   (claim_C1 pyHashModel "F".data (fun _ => Except.error ()) ⟨[], [], 0⟩
     ["a.pdf".data] 0 1 rfl rfl rfl (by decide)).2.2.2.2⟩

/-- C5 counterexample: the claim says an empty `required_files` returns
immediately without a cache lookup or provider call; in fact the provider is
invoked (call count 1, not 0) and the result is written to the cache under the
empty-set key. -/
theorem claim_C5_counterexample :
    c5EmptyResolve.2.providerCalls = 1 ∧
    c5EmptyResolve.1 = ⟨[], []⟩ ∧
    (kvLookup (get_drive_files_cache_key pyHashModel "F".data [])
        c5EmptyResolve.2.mem).isSome = true := by
  decide

/-- C5 (amended): an empty `required_files` is not special-cased: on a double
cache miss the resolver invokes the provider search once with the empty query
and writes whatever result it produces through both tiers under the empty-set
key (an empty result when that query raises). -/
theorem claim_C5 (h : Str → Int) (folder : Str)
    (search : Nat → Except Unit (List DriveFile)) (st : ResolverState) (now : Nat)
    (hm : kvLookup (get_drive_files_cache_key h folder []) st.mem = none)
    (hd : kvLookup (get_drive_files_cache_key h folder []) st.disk = none) :
    cache_drive_search h folder search st now [] =
      (FileService.get_drive_files_core [] (search st.providerCalls),
       { mem := SimpleCache.set st.mem now (get_drive_files_cache_key h folder [])
                  (FileService.get_drive_files_core [] (search st.providerCalls)) 300,
         disk := FileCache.set st.disk now (get_drive_files_cache_key h folder [])
                  (FileService.get_drive_files_core [] (search st.providerCalls)) 1800,
         providerCalls := st.providerCalls + 1 }) ∧
    FileService.get_drive_files_core [] (.error ()) = ⟨[], []⟩ :=
  ⟨cache_drive_search_full_miss h folder search st now [] hm hd, rfl⟩

/-- C5 witness: a fresh state and a failing provider. -/
theorem claim_C5_witness :
    kvLookup (get_drive_files_cache_key pyHashModel "F".data [])
      (ResolverState.mk [] [] 0).mem = none ∧
    cache_drive_search pyHashModel "F".data (fun _ => Except.error ())
        ⟨[], [], 0⟩ 0 [] =
      (⟨[], []⟩,
       { mem := SimpleCache.set [] 0 (get_drive_files_cache_key pyHashModel "F".data [])
                  (⟨[], []⟩ : DriveResult) 300,
         disk := FileCache.set [] 0 (get_drive_files_cache_key pyHashModel "F".data [])
                  (⟨[], []⟩ : DriveResult) 1800,
         providerCalls := 0 + 1 }) :=
  ⟨rfl, (claim_C5 pyHashModel "F".data (fun _ => Except.error ())
    ⟨[], [], 0⟩ 0 rfl rfl).1⟩

/-- C2 counterexample: the claim says a send request with a malformed
recipient fails with the operation body executed at most once; in fact
`retry_on_failure` catches the `ValueError` like any other exception and the
body is executed 4 times (`max_retries + 1`) before the validation error is
finally re-raised. -/
theorem claim_C2_counterexample :
    EmailService.send_email "not-an-email".data "s".data "b".data
        (fun _ => .ok ()) =
      (.error (.valueError "Invalid email address: not-an-email".data), 4) ∧
    ¬ (EmailService.send_email "not-an-email".data "s".data "b".data
        (fun _ => .ok ())).2 ≤ 1 := by
  decide

/-- C2 (amended): for every send request whose recipient is malformed or whose
subject or body is empty, the operation does fail with a validation error and
the SMTP send itself is never reached, but the retry wrapper re-executes the
operation body `max_retries + 1 = 4` times before re-raising that
`ValueError`; the failure is not immediate and the body is not executed at
most once. -/
theorem claim_C2 (to_email subject body : Str) (smtp : Nat → Except Str Unit)
    (hbad : validate_email to_email = false ∨ subject = [] ∨ body = []) :
    ∃ msg, EmailService.send_email to_email subject body smtp =
      (.error (.valueError msg), 4) := by
  have hbody : ∀ x, send_email_once to_email subject body x =
      .error (.valueError (if validate_email to_email = false
        then "Invalid email address: ".data ++ to_email
        else "Subject and body cannot be empty".data)) := by
    intro x
    by_cases hv : validate_email to_email = false
    · simp [send_email_once, hv]
    · have hse : (subject.isEmpty || body.isEmpty) = true := by
        rcases hbad with hb | hb | hb
        · exact absurd hb hv
        · simp [hb]
        · simp [hb]
      simp [send_email_once, hv, hse]
  exact ⟨_, retryExec_const_error (fun a => hbody (smtp a)) 3 0⟩

/-- C2 witness: a malformed recipient with non-empty subject and body and a
succeeding SMTP collaborator. -/
theorem claim_C2_witness :
    (validate_email "bad".data = false ∨ ("s".data : Str) = [] ∨
      ("b".data : Str) = []) ∧
    ∃ msg, EmailService.send_email "bad".data "s".data "b".data
        (fun _ => .ok ()) = (.error (.valueError msg), 4) :=
  ⟨Or.inl (by decide),
   claim_C2 "bad".data "s".data "b".data (fun _ => .ok ()) (Or.inl (by decide))⟩

/-- C3 counterexample: the claim says a failure on one order does not prevent
the update attempts for the remaining orders; in fact the `try/except` wraps
the whole loop, so with orders `["1","2","3"]` and a failure on `"2"`, order
`"3"` never has its update issued. -/
theorem claim_C3_counterexample :
    "3".data ∈ (["1".data, "2".data, "3".data] : List Str) ∧
    OrderService.update_order_status c3Upd ["1".data, "2".data, "3".data] =
      (false, ["1".data, "2".data]) ∧
    "3".data ∉ (OrderService.update_order_status c3Upd
      ["1".data, "2".data, "3".data]).2 := by
  decide

/-- C3 (amended): when every per-order update succeeds, every order in the
list has its update issued and the call returns `True`; but a failure on one
order aborts the loop — the error is caught outside it, logged once, and the
call returns `False` with no update issued for any order after the first
failing one. -/
theorem claim_C3 (upd : Str → Except Unit Unit) :
    (∀ orders : List Str, (∀ o ∈ orders, upd o = .ok ()) →
      OrderService.update_order_status upd orders = (true, orders)) ∧
    (∀ (pre : List Str) (o : Str) (post : List Str),
      (∀ p ∈ pre, upd p = .ok ()) → upd o = .error () →
      OrderService.update_order_status upd (pre ++ o :: post) =
        (false, pre ++ [o])) := by
  constructor
  · intro orders hok
    induction orders with
    | nil => rfl
    | cons a rest ih =>
      have ha := hok a (List.mem_cons_self a rest)
      simp [OrderService.update_order_status, ha,
        ih (fun o ho => hok o (List.mem_cons_of_mem a ho))]
  · intro pre o post hok hfail
    induction pre with
    | nil => simp [OrderService.update_order_status, hfail]
    | cons a rest ih =>
      have ha := hok a (List.mem_cons_self a rest)
      simp [OrderService.update_order_status, ha,
        ih (fun p hp => hok p (List.mem_cons_of_mem a hp))]

/-- C3 witness: all-success on `["1"]`, and an aborting failure on `"2"`
within `["1","2","3"]`. -/
theorem claim_C3_witness :
    (∀ o ∈ (["1".data] : List Str), c3Upd o = .ok ()) ∧
    OrderService.update_order_status c3Upd ["1".data] = (true, ["1".data]) ∧
    c3Upd "2".data = .error () ∧
    OrderService.update_order_status c3Upd ["1".data, "2".data, "3".data] =
      (false, ["1".data, "2".data]) :=
  ⟨by decide, (claim_C3 c3Upd).1 ["1".data] (by decide),
   by decide, (claim_C3 c3Upd).2 ["1".data] "2".data ["3".data]
     (by decide) (by decide)⟩
